import Mathlib

/-!
# Verification of the admin provisioner API slice of `certificates`

Shallow embedding of `api/errors.go` (`WriteError`) and of the admin
provisioner handlers (Get / List / Create / Update / Delete), whose
implementation is pinned by `authority/admin/api/provisioner_test.go`.
-/

set_option autoImplicit false

namespace Certificates

/-!
## Go error values, as `WriteError` observes them

`WriteError` inspects an error value through three interfaces:
the dynamic type `*acme.Error` (with its inner `Err` field), the
`errs.StatusCoder` interface, and the `errs.StackTracer` interface, plus
the `github.com/pkg/errors` `Cause()` chain. A `GoError` node records
exactly those capabilities: `statusCoder` is `some s` when the value
implements `StatusCoder` returning `s`, and `stackTracer` is `some tr`
when the value implements `StackTracer` whose formatted trace is `tr`.
`wrap` is a value implementing `Cause() error`; `acme` is an
`*acme.Error` with inner error `inner`, whose `hasCauser` flag records
whether the value also implements `Cause() error` (returning `inner`).
-/

inductive GoError : Type where
  /-- an error value implementing neither `Causer` nor being `*acme.Error` -/
  | simple (statusCoder : Option Nat) (stackTracer : Option String) : GoError
  /-- an error value implementing `Cause() error` returning `cause` -/
  | wrap (statusCoder : Option Nat) (stackTracer : Option String) (cause : GoError) : GoError
  /-- an `*acme.Error` with `Err` field `inner` -/
  | acme (statusCoder : Option Nat) (stackTracer : Option String)
      (hasCauser : Bool) (inner : GoError) : GoError
deriving DecidableEq

/-- The `errs.StatusCoder` view of an error value. -/
def GoError.statusCoder : GoError → Option Nat
  | .simple s _ => s
  | .wrap s _ _ => s
  | .acme s _ _ _ => s

/-- The `errs.StackTracer` view of an error value. -/
def GoError.stackTracer : GoError → Option String
  | .simple _ t => t
  | .wrap _ t _ => t
  | .acme _ t _ _ => t

/-- The dynamic type test `err.(type) == *acme.Error`. -/
def GoError.isAcmeError : GoError → Bool
  | .acme .. => true
  | _ => false

/-- `errors.Cause` from `github.com/pkg/errors`: follow the `Cause()`
chain while the current value implements the `causer` interface. -/
def errorsCause : GoError → GoError
  | .simple s t => .simple s t
  | .wrap _ _ c => errorsCause c
  | .acme s t false inner => .acme s t false inner
  | .acme _ _ true inner => errorsCause inner

/-- The value logged under the key `error`: the inner `Err` for an
`*acme.Error`, the error itself otherwise (lines 36-39 of errors.go). -/
def logErrOf : GoError → GoError
  | .acme _ _ _ inner => inner
  | .simple s t => .simple s t
  | .wrap s t c => .wrap s t c

/-- The fields attached to the structured-logging sink
(`logging.ResponseLogger.WithFields`). -/
structure LogFields where
  errorField : GoError
  stackTraceField : Option String
deriving DecidableEq

/-- The observable outcome of one `WriteError` call: the Content-Type
header, the status written, the log fields attached when the writer is a
`ResponseLogger`, and the error value handed to the JSON encoder as the
body. -/
structure WriteOutcome where
  contentType : String
  statusWritten : Nat
  logFields : Option LogFields
  bodyEncoded : GoError
deriving DecidableEq

/-- Shallow embedding of `WriteError` (api/errors.go lines 16-61).
`isResponseLogger` records whether `w` implements
`logging.ResponseLogger`; `stepdebug` is the value of the environment
variable `STEPDEBUG`. -/
def writeError (err : GoError) (isResponseLogger : Bool) (stepdebug : String) :
    WriteOutcome :=
  let contentType :=
    if err.isAcmeError then "application/problem+json" else "application/json"
  let cause := errorsCause err
  let statusWritten :=
    match err.statusCoder with
    | some sc => sc
    | none =>
      match cause.statusCoder with
      | some sc => sc
      | none => 500
  let logFields :=
    if isResponseLogger then
      let logErr := logErrOf err
      let stackTraceField :=
        if stepdebug = "1" then
          match logErr.stackTracer with
          | some tr => some tr
          | none =>
            match cause.stackTracer with
            | some tr => some tr
            | none => none
        else none
      some ⟨logErr, stackTraceField⟩
    else none
  ⟨contentType, statusWritten, logFields, err⟩

/-- The `stack-trace` field attached to the sink, if any. -/
def attachedStackTrace (o : WriteOutcome) : Option String :=
  match o.logFields with
  | none => none
  | some f => f.stackTraceField

/-!
## Admin provisioner handlers

The handler implementation file is pinned by
`authority/admin/api/provisioner_test.go`; the definitions below are
modelled from the spec (sections 4.2 and 4.6-4.10) and checked against
the observable behaviour the tests assert.
-/

/-- The `linkedca.Provisioner.Type` enumeration. -/
inductive ProvisionerKind : Type where
  | UNKNOWN | JWK | OIDC | ACME | X5C | K8sSA | SSHPOP | Nebula | SCEP
deriving DecidableEq

/-- A `*timestamppb.Timestamp` field: `none` is the nil pointer, `some t`
a timestamp whose instant (`AsTime()`) is `t` (in nanoseconds since the
Unix epoch; `AsTime()` of the nil pointer is the epoch itself, i.e. 0). -/
def LinkedcaTimestamp : Type := Option Int
deriving instance DecidableEq for LinkedcaTimestamp

/-- The instant `AsTime()` denotes: the epoch for a nil timestamp. -/
def tsInstant : LinkedcaTimestamp → Int
  | none => 0
  | some t => t

/-- Timestamp comparison by instant value
(`proposed.AsTime().Equal(persisted.AsTime())`). -/
def tsEqual (a b : LinkedcaTimestamp) : Bool :=
  tsInstant a == tsInstant b

/-- The persistent `linkedca.Provisioner` record. `details` stands for
the type-tagged variant payload together with the other mutable
attributes (claims, templates); the handlers carry it through opaquely. -/
structure LinkedcaProvisioner where
  id : String
  kind : ProvisionerKind
  name : String
  authorityId : String
  createdAt : LinkedcaTimestamp
  deletedAt : LinkedcaTimestamp
  details : String
deriving DecidableEq

/-- The cached in-authority view (`provisioner.Interface`): the handlers
only consume `GetID()` and the name. -/
structure CachedProvisioner where
  id : String
  name : String
deriving DecidableEq

/-- One call made through the authority port or the admin-store port. -/
inductive PortCall : Type where
  | loadByID (id : String)
  | loadByName (name : String)
  | listProvisioners (cursor : String) (limit : Int)
  | storeProvisioner (p : LinkedcaProvisioner)
  | updateProvisioner (p : LinkedcaProvisioner)
  | removeProvisioner (id : String)
  | dbGetProvisioner (id : String)
deriving DecidableEq

/-- Whether a port call mutates state (store / update / remove). -/
def PortCall.isMutating : PortCall → Bool
  | .storeProvisioner _ => true
  | .updateProvisioner _ => true
  | .removeProvisioner _ => true
  | _ => false

/-- The authority port (`adminAuthority`). Failures carry the cause
message of the Go error value. -/
structure AuthorityPorts where
  loadProvisionerByID : String → Except String CachedProvisioner
  loadProvisionerByName : String → Except String CachedProvisioner
  listProvisioners : String → Int → Except String (List CachedProvisioner × String)
  storeProvisioner : LinkedcaProvisioner → Except String Unit
  updateProvisioner : LinkedcaProvisioner → Except String Unit
  removeProvisioner : String → Except String Unit

/-- The admin store port (`admin.DB`), restricted to the single
operation the handlers consume. -/
structure AdminDB where
  getProvisioner : String → Except String LinkedcaProvisioner

/-- The `admin.Error` problem document `{type, status, detail, message}`
as it deserializes from the HTTP body. -/
structure AdminError where
  kind : String
  status : Nat
  detail : String
  message : String
deriving DecidableEq

/-- `admin.NewErrorISE`: a 500 `serverInternal` error. -/
def newErrorISE (msg : String) : AdminError :=
  ⟨"serverInternal", 500, "the server experienced an internal error", msg⟩

/-- `admin.WrapErrorISE`: a 500 `serverInternal` error whose message
appends the wrapped cause. -/
def wrapErrorISE (msg cause : String) : AdminError :=
  newErrorISE (msg ++ ": " ++ cause)

/-- The error body observed when a handler writes a plain (untyped) Go
error: `json.Encode` of a value with no exported fields yields an empty
document, so kind, detail and message are all empty. The status written
is 500. -/
def plainError500 : AdminError :=
  ⟨"", 500, "", ""⟩

/-- Modelled from the spec: the error body observed when a handler
surfaces a generic `errs`-package internal server error (the
`GetProvisioners` port failure path of the List handler, pinned by
`TestHandler_GetProvisioners/fail-auth.GetProvisioners`). -/
def genericISEMessage : String :=
  "The certificate authority encountered an Internal Server Error. Please see the certificate authority logs for more info."

/-- A handler outcome: either an `AdminError` body (with its status) or
a success status paired with the success body. -/
def HandlerResult (α : Type) : Type := Except AdminError (Nat × α)

/-- `strconv.Atoi`: an optional sign followed by one or more decimal
digits (machine-width overflow is out of scope; the handlers only branch
on syntactic validity). -/
def atoi (s : String) : Option Int :=
  match s.data with
  | [] => none
  | c :: cs =>
    let signed : Bool × List Char :=
      if c = '-' then (true, cs)
      else if c = '+' then (false, cs)
      else (false, c :: cs)
    match signed with
    | (neg, ds) =>
      if ds.isEmpty then none
      else if ds.all Char.isDigit then
        let n : Nat := ds.foldl (fun acc d => 10 * acc + (d.toNat - 48)) 0
        some (if neg then -(n : Int) else (n : Int))
      else none

/-- Modelled from the spec: the `badRequest` error the List handler
returns for a non-integer `limit` query value, pinned by
`TestHandler_GetProvisioners/fail-parse-cursor`. -/
def limitNotIntError (raw : String) : AdminError :=
  ⟨"badRequest", 400, "bad request",
    "error parsing cursor and limit from query params: "
      ++ ("limit \x27" ++ raw ++ "\x27 is not an integer")
      ++ (": strconv.Atoi: parsing \"" ++ raw ++ "\": invalid syntax")⟩

/-- Modelled from the spec: the Get handler (section 4.6). The
implementation file is absent from the sources (only its tests are);
behaviour is pinned by `TestHandler_GetProvisioner`. `idQuery` is the
`id` query parameter (empty when absent), `nameParam` the `name` path
parameter. Returns the outcome and the sequence of port calls made. -/
def getProvisionerHandler (auth : AuthorityPorts) (db : AdminDB)
    (idQuery nameParam : String) :
    HandlerResult LinkedcaProvisioner × List PortCall :=
  let loaded : Except AdminError CachedProvisioner × List PortCall :=
    if idQuery ≠ "" then
      match auth.loadProvisionerByID idQuery with
      | .error cause =>
        (.error (wrapErrorISE ("error loading provisioner " ++ idQuery) cause),
          [.loadByID idQuery])
      | .ok p => (.ok p, [.loadByID idQuery])
    else
      match auth.loadProvisionerByName nameParam with
      | .error cause =>
        (.error (wrapErrorISE ("error loading provisioner " ++ nameParam) cause),
          [.loadByName nameParam])
      | .ok p => (.ok p, [.loadByName nameParam])
  match loaded with
  | (.error e, calls) => (.error e, calls)
  | (.ok p, calls) =>
    match db.getProvisioner p.id with
    | .error cause =>
      (.error (newErrorISE cause), calls ++ [.dbGetProvisioner p.id])
    | .ok prov => (.ok (200, prov), calls ++ [.dbGetProvisioner p.id])

/-- Modelled from the spec: the List handler (sections 4.2 and 4.7),
pinned by `TestHandler_GetProvisioners`. `limitQuery` is the `limit`
query parameter (`none` when absent). -/
def getProvisionersHandler (auth : AuthorityPorts)
    (cursorQuery : String) (limitQuery : Option String) :
    HandlerResult (List CachedProvisioner × String) × List PortCall :=
  let parsed : Except AdminError Int :=
    match limitQuery with
    | none => .ok 0
    | some raw =>
      match atoi raw with
      | none => .error (limitNotIntError raw)
      | some l => .ok l
  match parsed with
  | .error e => (.error e, [])
  | .ok limit =>
    match auth.listProvisioners cursorQuery limit with
    | .error _ =>
      (.error ⟨"", 500, "", genericISEMessage⟩,
        [.listProvisioners cursorQuery limit])
    | .ok pair => (.ok (200, pair), [.listProvisioners cursorQuery limit])

/-- Modelled from the spec: the Create handler (section 4.8), pinned by
`TestHandler_CreateProvisioner`. `body` is the outcome of the
proto-JSON decode of the request body (`none` on decode failure, which
surfaces as a 500 with empty kind/detail/message). -/
def createProvisionerHandler (auth : AuthorityPorts)
    (body : Option LinkedcaProvisioner) :
    HandlerResult LinkedcaProvisioner × List PortCall :=
  match body with
  | none => (.error plainError500, [])
  | some prov =>
    match auth.storeProvisioner prov with
    | .error cause =>
      (.error (wrapErrorISE ("error storing provisioner " ++ prov.name) cause),
        [.storeProvisioner prov])
    | .ok _ => (.ok (201, prov), [.storeProvisioner prov])

/-- Modelled from the spec: the Delete handler (section 4.10), pinned by
`TestHandler_DeleteProvisioner`. -/
def deleteProvisionerHandler (auth : AuthorityPorts)
    (idQuery nameParam : String) :
    HandlerResult String × List PortCall :=
  let loaded : Except AdminError CachedProvisioner × List PortCall :=
    if idQuery ≠ "" then
      match auth.loadProvisionerByID idQuery with
      | .error cause =>
        (.error (wrapErrorISE ("error loading provisioner " ++ idQuery) cause),
          [.loadByID idQuery])
      | .ok p => (.ok p, [.loadByID idQuery])
    else
      match auth.loadProvisionerByName nameParam with
      | .error cause =>
        (.error (wrapErrorISE ("error loading provisioner " ++ nameParam) cause),
          [.loadByName nameParam])
      | .ok p => (.ok p, [.loadByName nameParam])
  match loaded with
  | (.error e, calls) => (.error e, calls)
  | (.ok p, calls) =>
    match auth.removeProvisioner p.id with
    | .error cause =>
      (.error (wrapErrorISE ("error removing provisioner " ++ p.name) cause),
        calls ++ [.removeProvisioner p.id])
    | .ok _ =>
      (.ok (200, "\x7b\"status\":\"ok\"\x7d"), calls ++ [.removeProvisioner p.id])

/-- Modelled from the spec: the Update handler (section 4.9), pinned by
`TestHandler_UpdateProvisioner`: decode, resolve the cached view by
name, load the persisted record by the cached id, run the five
immutability checks in order, then delegate to `UpdateProvisioner`. -/
def updateProvisionerHandler (auth : AuthorityPorts) (db : AdminDB)
    (nameParam : String) (body : Option LinkedcaProvisioner) :
    HandlerResult LinkedcaProvisioner × List PortCall :=
  match body with
  | none => (.error plainError500, [])
  | some nu =>
    match auth.loadProvisionerByName nameParam with
    | .error cause =>
      (.error (wrapErrorISE
          ("error loading provisioner from cached configuration \x27"
            ++ nameParam ++ "\x27") cause),
        [.loadByName nameParam])
    | .ok p =>
      match db.getProvisioner p.id with
      | .error cause =>
        (.error (wrapErrorISE
            ("error loading provisioner from db \x27" ++ p.id ++ "\x27") cause),
          [.loadByName nameParam, .dbGetProvisioner p.id])
      | .ok old =>
        let calls := [PortCall.loadByName nameParam, PortCall.dbGetProvisioner p.id]
        if nu.id ≠ old.id then
          (.error (newErrorISE "cannot change provisioner ID"), calls)
        else if nu.kind ≠ old.kind then
          (.error (newErrorISE "cannot change provisioner type"), calls)
        else if nu.authorityId ≠ old.authorityId then
          (.error (newErrorISE "cannot change provisioner authorityID"), calls)
        else if tsEqual nu.createdAt old.createdAt = false then
          (.error (newErrorISE "cannot change provisioner createdAt"), calls)
        else if tsEqual nu.deletedAt old.deletedAt = false then
          (.error (newErrorISE "cannot change provisioner deletedAt"), calls)
        else
          match auth.updateProvisioner nu with
          | .error _ => (.error plainError500, calls ++ [.updateProvisioner nu])
          | .ok _ => (.ok (200, nu), calls ++ [.updateProvisioner nu])

/-- The five immutability rules of section 4.9 all hold. -/
def immutOK (nu old : LinkedcaProvisioner) : Prop :=
  nu.id = old.id ∧ nu.kind = old.kind ∧ nu.authorityId = old.authorityId
    ∧ tsEqual nu.createdAt old.createdAt = true
    ∧ tsEqual nu.deletedAt old.deletedAt = true

instance (nu old : LinkedcaProvisioner) : Decidable (immutOK nu old) := by
  unfold immutOK; infer_instance

/-- The canonical message of the first violated immutability rule, in
the order of the table in section 4.9 (`none` when all rules hold). -/
def firstImmutMsg (nu old : LinkedcaProvisioner) : Option String :=
  if nu.id ≠ old.id then some "cannot change provisioner ID"
  else if nu.kind ≠ old.kind then some "cannot change provisioner type"
  else if nu.authorityId ≠ old.authorityId then
    some "cannot change provisioner authorityID"
  else if tsEqual nu.createdAt old.createdAt = false then
    some "cannot change provisioner createdAt"
  else if tsEqual nu.deletedAt old.deletedAt = false then
    some "cannot change provisioner deletedAt"
  else none

/-- Substring test on strings (used to express that an error message
names a subject). -/
def strContains (s sub : String) : Bool :=
  decide (List.IsInfix sub.data s.data)

/-!
## Claims about `WriteError` (api/errors.go)
-/

/-- C3: the HTTP status written by `WriteError` is the status carried by
the error itself if it implements `StatusCoder`; otherwise the status
carried by the root cause of its causal chain if that cause carries one;
otherwise 500. -/
theorem c3_writeError_status_derivation (e : GoError) (l : Bool) (d : String) :
    (∀ sc, e.statusCoder = some sc → (writeError e l d).statusWritten = sc)
    ∧ (e.statusCoder = none →
        ∀ sc, (errorsCause e).statusCoder = some sc →
          (writeError e l d).statusWritten = sc)
    ∧ (e.statusCoder = none → (errorsCause e).statusCoder = none →
        (writeError e l d).statusWritten = 500) := by
  refine ⟨?_, ?_, ?_⟩ <;> intros <;> simp [writeError, *]

/-- Witness for C3: a status-less wrapper around a 404-carrying cause is
written with status 404. -/
theorem c3_writeError_status_derivation_witness :
    (writeError (.wrap none none (.simple (some 404) none)) true "").statusWritten
      = 404 :=
  (c3_writeError_status_derivation
    (.wrap none none (.simple (some 404) none)) true "").2.1 rfl 404 rfl

/-- C4: the response Content-Type is `application/problem+json` exactly
when the error value is an `*acme.Error`, and `application/json` for
every other error value. -/
theorem c4_writeError_content_type (e : GoError) (l : Bool) (d : String) :
    ((writeError e l d).contentType = "application/problem+json"
        ↔ e.isAcmeError = true)
    ∧ ((writeError e l d).contentType = "application/json"
        ↔ e.isAcmeError = false) := by
  cases e <;> simp [writeError, GoError.isAcmeError]

/-- Witness for C4: an acme error is written as a problem document. -/
theorem c4_writeError_content_type_witness :
    (writeError (.acme none none false (.simple none none)) true "").contentType
      = "application/problem+json" :=
  ((c4_writeError_content_type
    (.acme none none false (.simple none none)) true "").1).mpr rfl

/-- C5: a `stack-trace` log field is attached only when `STEPDEBUG` is
`"1"` and the logged error or the root cause carries a stack trace; and
the HTTP body is the JSON encoding of the error value alone, identical
whatever `STEPDEBUG` is set to. -/
theorem c5_stepdebug_stack_and_body (e : GoError) (l : Bool) (d d2 : String) :
    ((attachedStackTrace (writeError e l d)).isSome = true →
        d = "1" ∧ ((logErrOf e).stackTracer.isSome = true
          ∨ (errorsCause e).stackTracer.isSome = true))
    ∧ (writeError e l d).bodyEncoded = e
    ∧ (writeError e l d).bodyEncoded = (writeError e l d2).bodyEncoded := by
  refine ⟨?_, rfl, rfl⟩
  intro h
  cases l with
  | false => simp [attachedStackTrace, writeError] at h
  | true =>
    by_cases hd : d = "1"
    · subst hd
      refine ⟨rfl, ?_⟩
      rcases h1 : (logErrOf e).stackTracer with _ | tr
      · rcases h2 : (errorsCause e).stackTracer with _ | tr2
        · exact absurd h (by simp [attachedStackTrace, writeError, h1, h2])
        · exact Or.inr (by simp [h2])
      · exact Or.inl (by simp [h1])
    · exact absurd h (by simp [attachedStackTrace, writeError, hd])

/-- Witness for C5: with `STEPDEBUG=1` and a stack-carrying error the
attached-trace hypothesis is satisfied and the conclusion holds. -/
theorem c5_stepdebug_stack_and_body_witness :
    "1" = "1" ∧ ((logErrOf (.simple none (some "tr"))).stackTracer.isSome = true
      ∨ (errorsCause (.simple none (some "tr"))).stackTracer.isSome = true) :=
  (c5_stepdebug_stack_and_body (.simple none (some "tr")) true "1" "0").1 rfl

/-- C10: for an `*acme.Error` written through a structured-logging sink,
the value logged under `error` is the inner wrapped error, and under
`STEPDEBUG=1` the stack-trace check is applied to that inner error
first, falling back to the root cause of the original error only when
the inner error carries no stack trace. -/
theorem c10_acme_inner_logging (s : Option Nat) (t : Option String) (hc : Bool)
    (inner : GoError) (d : String) :
    ((writeError (GoError.acme s t hc inner) true d).logFields.map
        LogFields.errorField = some inner)
    ∧ (d = "1" → ∀ tr, inner.stackTracer = some tr →
        attachedStackTrace (writeError (GoError.acme s t hc inner) true d)
          = some tr)
    ∧ (d = "1" → inner.stackTracer = none →
        attachedStackTrace (writeError (GoError.acme s t hc inner) true d)
          = (errorsCause (GoError.acme s t hc inner)).stackTracer) := by
  refine ⟨rfl, ?_, ?_⟩
  · intro hd tr htr
    subst hd
    simp [attachedStackTrace, writeError, logErrOf, htr]
  · intro hd htr
    subst hd
    rcases h2 : (errorsCause (GoError.acme s t hc inner)).stackTracer with _ | tr2
      <;> simp [attachedStackTrace, writeError, logErrOf, htr, h2]

/-- Witness for C10: an acme error whose inner error carries a trace
logs that inner trace. -/
theorem c10_acme_inner_logging_witness :
    attachedStackTrace
      (writeError (GoError.acme none none false (.simple none (some "tr")))
        true "1") = some "tr" :=
  (c10_acme_inner_logging none none false (.simple none (some "tr")) "1").2.1
    rfl "tr" rfl

/-!
## Concrete fixtures (mirroring the test doubles of provisioner_test.go)
-/

/-- The cached view the mock authority resolves `provName` to. -/
def view0 : CachedProvisioner := ⟨"provID", "provName"⟩

/-- The persisted record held by the mock admin store. -/
def old0 : LinkedcaProvisioner :=
  ⟨"provID", .OIDC, "provName", "authorityID", some 1700000000, none, ""⟩

/-- A proposed record that tries to change the immutable id. -/
def nu0 : LinkedcaProvisioner :=
  ⟨"differentProvID", .OIDC, "provName", "authorityID", some 1700000000, none, ""⟩

/-- An authority whose ports all succeed. -/
def authA : AuthorityPorts :=
  ⟨fun _ => .ok view0, fun _ => .ok view0,
   fun _ _ => .ok ([], "nextCursorValue"),
   fun _ => .ok (), fun _ => .ok (), fun _ => .ok ()⟩

/-- An authority whose delegated `UpdateProvisioner` fails with `force`. -/
def authUpdFail : AuthorityPorts :=
  ⟨fun _ => .ok view0, fun _ => .ok view0,
   fun _ _ => .ok ([], "nextCursorValue"),
   fun _ => .ok (), fun _ => .error "force", fun _ => .ok ()⟩

/-- An authority whose ports all fail with `force`. -/
def authFail : AuthorityPorts :=
  ⟨fun _ => .error "force", fun _ => .error "force", fun _ _ => .error "force",
   fun _ => .error "force", fun _ => .error "force", fun _ => .error "force"⟩

/-- An admin store holding `old0`. -/
def db0 : AdminDB := ⟨fun _ => .ok old0⟩

/-!
## Claims about the Update handler
-/

/-- C1: for a decoded proposed record and the persisted record loaded
from the admin store, the Update handler checks id, type, authorityId,
createdAt, deletedAt in exactly that order, and the first failing check
produces the 500 `serverInternal` error with the corresponding canonical
message; timestamps compare by instant value, a nil/zero persisted
timestamp equalling a nil/zero proposed one. -/
theorem c1_update_immutability_order (auth : AuthorityPorts) (db : AdminDB)
    (name : String) (v : CachedProvisioner) (nu old : LinkedcaProvisioner)
    (h1 : auth.loadProvisionerByName name = .ok v)
    (h2 : db.getProvisioner v.id = .ok old) :
    (nu.id ≠ old.id →
      (updateProvisionerHandler auth db name (some nu)).1
        = .error (newErrorISE "cannot change provisioner ID"))
    ∧ (nu.id = old.id → nu.kind ≠ old.kind →
      (updateProvisionerHandler auth db name (some nu)).1
        = .error (newErrorISE "cannot change provisioner type"))
    ∧ (nu.id = old.id → nu.kind = old.kind → nu.authorityId ≠ old.authorityId →
      (updateProvisionerHandler auth db name (some nu)).1
        = .error (newErrorISE "cannot change provisioner authorityID"))
    ∧ (nu.id = old.id → nu.kind = old.kind → nu.authorityId = old.authorityId →
        tsEqual nu.createdAt old.createdAt = false →
      (updateProvisionerHandler auth db name (some nu)).1
        = .error (newErrorISE "cannot change provisioner createdAt"))
    ∧ (nu.id = old.id → nu.kind = old.kind → nu.authorityId = old.authorityId →
        tsEqual nu.createdAt old.createdAt = true →
        tsEqual nu.deletedAt old.deletedAt = false →
      (updateProvisionerHandler auth db name (some nu)).1
        = .error (newErrorISE "cannot change provisioner deletedAt"))
    ∧ (∀ a b : LinkedcaTimestamp, tsEqual a b = (tsInstant a == tsInstant b))
    ∧ tsEqual none none = true
    ∧ (∀ t : Int, tsEqual (some t) (some t) = true) := by
  refine ⟨?_, ?_, ?_, ?_, ?_, fun a b => rfl, rfl, fun t => by simp [tsEqual]⟩
    <;> intros <;> simp [updateProvisionerHandler, h1, h2, *]

/-- Witness for C1: proposing a different id yields the canonical ID
error. -/
theorem c1_update_immutability_order_witness :
    (updateProvisionerHandler authA db0 "provName" (some nu0)).1
      = .error (newErrorISE "cannot change provisioner ID") :=
  (c1_update_immutability_order authA db0 "provName" view0 nu0 old0 rfl rfl).1
    (by decide)

/-- C2: when all five immutability rules hold, Update succeeds iff the
delegated `UpdateProvisioner` port call succeeds; when any rule is
violated, Update fails with the corresponding canonical message and the
call trace contains no mutating port call. -/
theorem c2_update_delegation_and_guard (auth : AuthorityPorts) (db : AdminDB)
    (name : String) (v : CachedProvisioner) (nu old : LinkedcaProvisioner)
    (h1 : auth.loadProvisionerByName name = .ok v)
    (h2 : db.getProvisioner v.id = .ok old) :
    (immutOK nu old →
      ((updateProvisionerHandler auth db name (some nu)).1 = .ok (200, nu)
        ↔ auth.updateProvisioner nu = .ok ()))
    ∧ (¬ immutOK nu old →
      (∃ m, firstImmutMsg nu old = some m
        ∧ (updateProvisionerHandler auth db name (some nu)).1
            = .error (newErrorISE m))
      ∧ ∀ c ∈ (updateProvisionerHandler auth db name (some nu)).2,
          c.isMutating = false) := by
  constructor
  · rintro ⟨hid, hk, ha, hc, hdel⟩
    rcases h3 : auth.updateProvisioner nu with c | u
    · simp [updateProvisionerHandler, h1, h2, hid, hk, ha, hc, hdel, h3,
        plainError500, newErrorISE]
    · cases u
      simp [updateProvisionerHandler, h1, h2, hid, hk, ha, hc, hdel, h3]
  · intro hviol
    by_cases hid : nu.id = old.id
    · by_cases hk : nu.kind = old.kind
      · by_cases ha : nu.authorityId = old.authorityId
        · by_cases hc : tsEqual nu.createdAt old.createdAt = true
          · by_cases hdel : tsEqual nu.deletedAt old.deletedAt = true
            · exact absurd ⟨hid, hk, ha, hc, hdel⟩ hviol
            · rw [Bool.not_eq_true] at hdel
              refine ⟨⟨"cannot change provisioner deletedAt",
                  by simp [firstImmutMsg, hid, hk, ha, hc, hdel],
                  by simp [updateProvisionerHandler, h1, h2, hid, hk, ha, hc, hdel]⟩,
                ?_⟩
              intro c hcm
              simp [updateProvisionerHandler, h1, h2, hid, hk, ha, hc, hdel] at hcm
              rcases hcm with h | h <;> subst h <;> rfl
          · rw [Bool.not_eq_true] at hc
            refine ⟨⟨"cannot change provisioner createdAt",
                by simp [firstImmutMsg, hid, hk, ha, hc],
                by simp [updateProvisionerHandler, h1, h2, hid, hk, ha, hc]⟩,
              ?_⟩
            intro c hcm
            simp [updateProvisionerHandler, h1, h2, hid, hk, ha, hc] at hcm
            rcases hcm with h | h <;> subst h <;> rfl
        · refine ⟨⟨"cannot change provisioner authorityID",
              by simp [firstImmutMsg, hid, hk, ha],
              by simp [updateProvisionerHandler, h1, h2, hid, hk, ha]⟩,
            ?_⟩
          intro c hcm
          simp [updateProvisionerHandler, h1, h2, hid, hk, ha] at hcm
          rcases hcm with h | h <;> subst h <;> rfl
      · refine ⟨⟨"cannot change provisioner type",
            by simp [firstImmutMsg, hid, hk],
            by simp [updateProvisionerHandler, h1, h2, hid, hk]⟩,
          ?_⟩
        intro c hcm
        simp [updateProvisionerHandler, h1, h2, hid, hk] at hcm
        rcases hcm with h | h <;> subst h <;> rfl
    · refine ⟨⟨"cannot change provisioner ID",
          by simp [firstImmutMsg, hid],
          by simp [updateProvisionerHandler, h1, h2, hid]⟩,
        ?_⟩
      intro c hcm
      simp [updateProvisionerHandler, h1, h2, hid] at hcm
      rcases hcm with h | h <;> subst h <;> rfl

/-- Witness for C2: the id-changing proposal is rejected with the ID
message and no mutating port call is made. -/
theorem c2_update_delegation_and_guard_witness :
    (∃ m, firstImmutMsg nu0 old0 = some m
      ∧ (updateProvisionerHandler authA db0 "provName" (some nu0)).1
          = .error (newErrorISE m))
    ∧ ∀ c ∈ (updateProvisionerHandler authA db0 "provName" (some nu0)).2,
        c.isMutating = false :=
  (c2_update_delegation_and_guard authA db0 "provName" view0 nu0 old0 rfl rfl).2
    (by decide)

/-!
## Claims about the List and Get handlers
-/

/-- A string contains any middle fragment of its own append structure. -/
theorem strContains_middle (a s b : String) : strContains (a ++ s ++ b) s = true := by
  refine decide_eq_true ?_
  refine ⟨a.data, b.data, ?_⟩
  rw [String.congr_append (a ++ s) b, String.congr_append a s]

/-- C6: a present but non-integer `limit` query value yields a 400
`badRequest` error whose message names the offending value in the form
`limit 'X' is not an integer`, and no authority port call is made. -/
theorem c6_list_limit_not_integer (auth : AuthorityPorts) (cursorQ raw : String)
    (h : atoi raw = none) :
    (getProvisionersHandler auth cursorQ (some raw)).1
      = .error (limitNotIntError raw)
    ∧ (getProvisionersHandler auth cursorQ (some raw)).2 = []
    ∧ (limitNotIntError raw).status = 400
    ∧ (limitNotIntError raw).kind = "badRequest"
    ∧ (limitNotIntError raw).detail = "bad request"
    ∧ strContains (limitNotIntError raw).message
        ("limit \x27" ++ raw ++ "\x27 is not an integer") = true := by
  refine ⟨?_, ?_, rfl, rfl, rfl, strContains_middle _ _ _⟩
  · simp [getProvisionersHandler, h]
  · simp [getProvisionersHandler, h]

/-- Witness for C6: the literal query value `X` of the test is rejected
without touching the authority. -/
theorem c6_list_limit_not_integer_witness :
    (getProvisionersHandler authA "" (some "X")).1 = .error (limitNotIntError "X")
    ∧ (getProvisionersHandler authA "" (some "X")).2 = []
    ∧ (limitNotIntError "X").status = 400
    ∧ (limitNotIntError "X").kind = "badRequest"
    ∧ (limitNotIntError "X").detail = "bad request"
    ∧ strContains (limitNotIntError "X").message
        ("limit \x27" ++ "X" ++ "\x27 is not an integer") = true :=
  c6_list_limit_not_integer authA "" "X" (by decide)

/-- C7: Get resolves via `LoadProvisionerByID` when a non-empty `id`
query parameter is present, otherwise via `LoadProvisionerByName` with
the `name` path parameter, then fetches the persistent record from the
admin store by the resolved id and returns it with status 200; any
failure in the sequence produces a 500. -/
theorem c7_get_resolution (auth : AuthorityPorts) (db : AdminDB)
    (idq name : String) :
    (idq ≠ "" → ∀ v prov, auth.loadProvisionerByID idq = .ok v →
        db.getProvisioner v.id = .ok prov →
        getProvisionerHandler auth db idq name
          = (.ok (200, prov), [.loadByID idq, .dbGetProvisioner v.id]))
    ∧ (idq = "" → ∀ v prov, auth.loadProvisionerByName name = .ok v →
        db.getProvisioner v.id = .ok prov →
        getProvisionerHandler auth db idq name
          = (.ok (200, prov), [.loadByName name, .dbGetProvisioner v.id]))
    ∧ (∀ e, (getProvisionerHandler auth db idq name).1 = .error e →
        e.status = 500) := by
  refine ⟨?_, ?_, ?_⟩
  · intro hne v prov hv hp
    simp [getProvisionerHandler, hne, hv, hp]
  · intro heq v prov hv hp
    subst heq
    simp [getProvisionerHandler, hv, hp]
  · intro e he
    by_cases hq : idq = ""
    · subst hq
      rcases hv : auth.loadProvisionerByName name with c | v
      · simp [getProvisionerHandler, hv] at he
        injection he with he
        subst he
        rfl
      · rcases hp : db.getProvisioner v.id with c | prov
        · simp [getProvisionerHandler, hv, hp] at he
          injection he with he
          subst he
          rfl
        · simp [getProvisionerHandler, hv, hp] at he
    · rcases hv : auth.loadProvisionerByID idq with c | v
      · simp [getProvisionerHandler, hq, hv] at he
        injection he with he
        subst he
        rfl
      · rcases hp : db.getProvisioner v.id with c | prov
        · simp [getProvisionerHandler, hq, hv, hp] at he
          injection he with he
          subst he
          rfl
        · simp [getProvisionerHandler, hq, hv, hp] at he

/-- Witness for C7: a non-empty `id` query resolves by id and returns
the stored record with 200. -/
theorem c7_get_resolution_witness :
    getProvisionerHandler authA db0 "provID" "provName"
      = (.ok (200, old0), [.loadByID "provID", .dbGetProvisioner view0.id]) :=
  (c7_get_resolution authA db0 "provID" "provName").1 (by decide) view0 old0
    rfl rfl

/-!
## C8: port-failure wrapping
-/

/-- Counterexample to C8 as stated: a failure of the `UpdateProvisioner`
port (cause `force`, as in
`TestHandler_UpdateProvisioner/fail-auth.UpdateProvisioner`) is surfaced
by the Update handler with a completely empty message, which names
neither the subject (`provName` / `provID`) nor any operation word. -/
theorem c8_port_wrapping_counterexample :
    (updateProvisionerHandler authUpdFail db0 "provName" (some old0)).1
      = .error plainError500
    ∧ plainError500.message = ""
    ∧ strContains plainError500.message "provName" = false
    ∧ strContains plainError500.message "provID" = false
    ∧ strContains plainError500.message "loading" = false
    ∧ strContains plainError500.message "storing" = false
    ∧ strContains plainError500.message "removing" = false := by
  refine ⟨rfl, rfl, ?_, ?_, ?_, ?_, ?_⟩ <;> decide

/-- C8 (amended): load, store, remove and admin-store failures are
wrapped at the handler boundary with a message naming the subject and
the operation; but `UpdateProvisioner` failures surface with an empty
message and `GetProvisioners` failures with a generic message naming
neither. -/
theorem c8_port_failure_wrapping (auth : AuthorityPorts) (db : AdminDB)
    (idq name cursorQ cause : String) (v : CachedProvisioner)
    (nu old : LinkedcaProvisioner) :
    (idq ≠ "" → auth.loadProvisionerByID idq = .error cause →
      (getProvisionerHandler auth db idq name).1
        = .error (wrapErrorISE ("error loading provisioner " ++ idq) cause))
    ∧ (idq = "" → auth.loadProvisionerByName name = .error cause →
      (getProvisionerHandler auth db idq name).1
        = .error (wrapErrorISE ("error loading provisioner " ++ name) cause))
    ∧ (auth.storeProvisioner nu = .error cause →
      (createProvisionerHandler auth (some nu)).1
        = .error (wrapErrorISE ("error storing provisioner " ++ nu.name) cause))
    ∧ (idq = "" → auth.loadProvisionerByName name = .ok v →
        auth.removeProvisioner v.id = .error cause →
      (deleteProvisionerHandler auth idq name).1
        = .error (wrapErrorISE ("error removing provisioner " ++ v.name) cause))
    ∧ (auth.loadProvisionerByName name = .error cause →
      (updateProvisionerHandler auth db name (some nu)).1
        = .error (wrapErrorISE
            ("error loading provisioner from cached configuration \x27"
              ++ name ++ "\x27") cause))
    ∧ (auth.loadProvisionerByName name = .ok v →
        db.getProvisioner v.id = .error cause →
      (updateProvisionerHandler auth db name (some nu)).1
        = .error (wrapErrorISE
            ("error loading provisioner from db \x27" ++ v.id ++ "\x27") cause))
    ∧ (auth.loadProvisionerByName name = .ok v →
        db.getProvisioner v.id = .ok old → immutOK nu old →
        auth.updateProvisioner nu = .error cause →
      (updateProvisionerHandler auth db name (some nu)).1
        = .error plainError500)
    ∧ (auth.listProvisioners cursorQ 0 = .error cause →
      (getProvisionersHandler auth cursorQ none).1
        = .error ⟨"", 500, "", genericISEMessage⟩) := by
  refine ⟨?_, ?_, ?_, ?_, ?_, ?_, ?_, ?_⟩
  · intro h1 h2
    simp [getProvisionerHandler, h1, h2]
  · intro h1 h2
    subst h1
    simp [getProvisionerHandler, h2]
  · intro h1
    simp [createProvisionerHandler, h1]
  · intro h1 h2 h3
    subst h1
    simp [deleteProvisionerHandler, h2, h3]
  · intro h1
    simp [updateProvisionerHandler, h1]
  · intro h1 h2
    simp [updateProvisionerHandler, h1, h2]
  · rintro h1 h2 ⟨hid, hk, ha, hc, hdel⟩ h3
    simp [updateProvisionerHandler, h1, h2, hid, hk, ha, hc, hdel, h3]
  · intro h1
    simp [getProvisionersHandler, h1]

/-- Witness for C8 (amended): a failing load by id in the Get handler is
wrapped with the id and the word loading. -/
theorem c8_port_failure_wrapping_witness :
    (getProvisionerHandler authFail db0 "provID" "x").1
      = .error (wrapErrorISE ("error loading provisioner " ++ "provID") "force") :=
  (c8_port_failure_wrapping authFail db0 "provID" "x" "" "force" view0 nu0 old0).1
    (by decide) rfl

/-!
## C9: body-decoding failures
-/

/-- C9: a Create or Update request whose body fails to decode yields
status 500 with empty kind, detail and message, and no port call is
made. -/
theorem c9_decode_failure (auth : AuthorityPorts) (db : AdminDB) (name : String) :
    createProvisionerHandler auth none = (.error plainError500, [])
    ∧ updateProvisionerHandler auth db name none = (.error plainError500, [])
    ∧ plainError500.status = 500 ∧ plainError500.kind = ""
    ∧ plainError500.detail = "" ∧ plainError500.message = "" :=
  ⟨rfl, rfl, rfl, rfl, rfl, rfl⟩

/-!
## Sanity checks against the concrete vectors of provisioner_test.go
-/

example :
    (limitNotIntError "X").message
      = "error parsing cursor and limit from query params: limit \x27X\x27 is not an integer: strconv.Atoi: parsing \"X\": invalid syntax" := by
  decide

example :
    getProvisionerHandler authA db0 "" "provName"
      = (.ok (200, old0), [.loadByName "provName", .dbGetProvisioner "provID"]) :=
  rfl

example :
    (updateProvisionerHandler authA db0 "provName"
        (some { old0 with kind := .JWK })).1
      = .error (newErrorISE "cannot change provisioner type") :=
  rfl

example :
    (updateProvisionerHandler authA db0 "provName" (some old0)).1
      = .ok (200, old0) :=
  rfl

example :
    deleteProvisionerHandler authA "" "provName"
      = (.ok (200, "\x7b\"status\":\"ok\"\x7d"),
          [.loadByName "provName", .removeProvisioner "provID"]) :=
  rfl

example : (writeError (.simple none none) false "").statusWritten = 500 := rfl

example :
    (writeError (.simple (some 404) none) false "").statusWritten = 404 := rfl

end Certificates
